import Mathlib

/-!
Shallow embedding of the chip-rs CHIP-8 emulator (src/src/data_structures and
src/src/virtual_machine) for checking its natural-language specification.

Conventions used throughout, mapping Rust to Lean:
* machine integers become `Nat`; the places where a Rust type truncates or
  wraps carry an explicit `% 2^w` (release-profile two's-complement wrapping
  for `u8`/`u16` arithmetic);
* bit operations on in-range values are written in `div`/`mod` form:
  `x & 0xFF` is `x % 256`, `x >> 8` is `x / 256`, `x << 1` is `x * 2`,
  `x & 0x0FFF` is `x % 4096`, a cast `as u8`/`as u16` is `% 256`/`% 65536`;
  `&` against a non-contiguous-from-bit-0 mask stays `&&&`;
* Rust functions returning `Result` become `Except`; `&mut self` methods
  become state-passing functions;
* the fixed-size arrays (`[u8; 4096]`, `[u8; 16]`, `[bool; 2048]`,
  `[u16; 16]`) become total functions `Nat → Nat` / `Nat → Bool`.
  Out-of-bounds indexing panics in Rust; those panics are outside this model,
  and every claim below only depends on in-bounds behaviour.
-/

namespace ChipRs

/-! ## data_structures/nibble.rs -/

/-- Rust `Nibble` is a 16-value enum; we model a nibble as a `Nat` in
`[0, 16)`.  `Nibble::to_hex_char` maps a nibble to its uppercase hex digit.
The Rust enum has exactly 16 inhabitants, so the wildcard branch is
unreachable at call sites. -/
def toHexChar (n : Nat) : Char :=
  match n with
  | 0 => '0'
  | 1 => '1'
  | 2 => '2'
  | 3 => '3'
  | 4 => '4'
  | 5 => '5'
  | 6 => '6'
  | 7 => '7'
  | 8 => '8'
  | 9 => '9'
  | 10 => 'A'
  | 11 => 'B'
  | 12 => 'C'
  | 13 => 'D'
  | 14 => 'E'
  | 15 => 'F'
  | _ => '0'

/-- Behaviour of `usize::from_str_radix(single_char, 16)`: hex digit value of
a single character, accepting both uppercase and lowercase, `none` (an `Err`)
otherwise. -/
def hexVal (c : Char) : Option Nat :=
  let p := c.toNat
  -- ASCII code points: digits 48..57, uppercase A..F 65..70, lowercase 97..102.
  if 48 ≤ p ∧ p ≤ 57 then some (p - 48)
  else if 65 ≤ p ∧ p ≤ 70 then some (p - 65 + 10)
  else if 97 ≤ p ∧ p ≤ 102 then some (p - 97 + 10)
  else none

/-- Rust `NibblePair { low, high }`. -/
structure NibblePair where
  low : Nat
  high : Nat

/-- `impl From<u8> for NibblePair`: `high = byte >> 4`, `low = byte & 0b1111`.
Call sites always pass a `u8`, i.e. a value below 256. -/
def NibblePair.ofByte (b : Nat) : NibblePair :=
  { high := b / 16, low := b % 16 }

/-! ## virtual_machine/opcode.rs -/

/-- Rust `OpKind`: coarse category of an instruction form. -/
inductive OpKind where
  | Assig | BCD | BitOp | Call | Cond | Const | Display
  | Flow | KeyOp | Math | MEM | Rand | Sound | Timer
  deriving DecidableEq, Repr

/-- Rust `OpLiteral`: the 35 known instruction forms. -/
inductive OpLiteral where
  | _0NNN | _00E0 | _00EE | _1NNN | _2NNN | _3XNN | _4XNN | _5XY0
  | _6XNN | _7XNN | _8XY0 | _8XY1 | _8XY2 | _8XY3 | _8XY4 | _8XY5
  | _8XY6 | _8XY7 | _8XYE | _9XY0 | _ANNN | _BNNN | _CXNN | _DXYN
  | _EX9E | _EXA1 | _FX07 | _FX0A | _FX15 | _FX18 | _FX1E | _FX29
  | _FX33 | _FX55 | _FX65
  deriving DecidableEq, Repr

/-- Rust `OpCode { value, literal, kind }`. -/
structure OpCode where
  value : Nat
  literal : OpLiteral
  kind : OpKind

/-- `impl TryFrom<u16> for OpCode`; the `Err(OpCodeError::Unknown)` outcome is
modelled as `none`.  The source splits the word into four nibbles, renders
each with `Nibble::to_hex_char`, and matches the four characters against a
flat ordered table of 35 rows.  Since `to_hex_char` is a bijection between
nibble values and hex digit characters, we match the nibble values
themselves; and since every row of the source's table is keyed by a concrete
first digit, grouping the rows by that first digit (as below) preserves the
source's first-match semantics row for row. -/
def OpCode.tryFrom (value : Nat) : Option OpCode :=
  let highByte := value / 256 % 256
  let lowByte := value % 256
  let first := highByte / 16
  let second := highByte % 16
  let third := lowByte / 16
  let fourth := lowByte % 16
  match first with
  | 0 =>
    match second, third, fourth with
    | 0, 14, 0 => some ⟨value, OpLiteral._00E0, OpKind.Display⟩
    | 0, 14, 14 => some ⟨value, OpLiteral._00EE, OpKind.Flow⟩
    | _, _, _ => some ⟨value, OpLiteral._0NNN, OpKind.Call⟩
  | 1 => some ⟨value, OpLiteral._1NNN, OpKind.Flow⟩
  | 2 => some ⟨value, OpLiteral._2NNN, OpKind.Flow⟩
  | 3 => some ⟨value, OpLiteral._3XNN, OpKind.Cond⟩
  | 4 => some ⟨value, OpLiteral._4XNN, OpKind.Cond⟩
  | 5 => some ⟨value, OpLiteral._5XY0, OpKind.Cond⟩
  | 6 => some ⟨value, OpLiteral._6XNN, OpKind.Const⟩
  | 7 => some ⟨value, OpLiteral._7XNN, OpKind.Const⟩
  | 8 =>
    match fourth with
    | 0 => some ⟨value, OpLiteral._8XY0, OpKind.Assig⟩
    | 1 => some ⟨value, OpLiteral._8XY1, OpKind.BitOp⟩
    | 2 => some ⟨value, OpLiteral._8XY2, OpKind.BitOp⟩
    | 3 => some ⟨value, OpLiteral._8XY3, OpKind.BitOp⟩
    | 4 => some ⟨value, OpLiteral._8XY4, OpKind.Math⟩
    | 5 => some ⟨value, OpLiteral._8XY5, OpKind.Math⟩
    | 6 => some ⟨value, OpLiteral._8XY6, OpKind.BitOp⟩
    | 7 => some ⟨value, OpLiteral._8XY7, OpKind.Math⟩
    | 14 => some ⟨value, OpLiteral._8XYE, OpKind.BitOp⟩
    | _ => none
  | 9 =>
    match fourth with
    | 0 => some ⟨value, OpLiteral._9XY0, OpKind.Cond⟩
    | _ => none
  | 10 => some ⟨value, OpLiteral._ANNN, OpKind.MEM⟩
  | 11 => some ⟨value, OpLiteral._BNNN, OpKind.Flow⟩
  | 12 => some ⟨value, OpLiteral._CXNN, OpKind.Rand⟩
  | 13 => some ⟨value, OpLiteral._DXYN, OpKind.Display⟩
  | 14 =>
    match third, fourth with
    | 9, 14 => some ⟨value, OpLiteral._EX9E, OpKind.KeyOp⟩
    | 10, 1 => some ⟨value, OpLiteral._EXA1, OpKind.KeyOp⟩
    | _, _ => none
  | 15 =>
    match third, fourth with
    | 0, 7 => some ⟨value, OpLiteral._FX07, OpKind.Timer⟩
    | 0, 10 => some ⟨value, OpLiteral._FX0A, OpKind.KeyOp⟩
    | 1, 5 => some ⟨value, OpLiteral._FX15, OpKind.Timer⟩
    | 1, 8 => some ⟨value, OpLiteral._FX18, OpKind.Sound⟩
    | 1, 14 => some ⟨value, OpLiteral._FX1E, OpKind.MEM⟩
    | 2, 9 => some ⟨value, OpLiteral._FX29, OpKind.MEM⟩
    | 3, 3 => some ⟨value, OpLiteral._FX33, OpKind.MEM⟩
    | 5, 5 => some ⟨value, OpLiteral._FX55, OpKind.MEM⟩
    | 6, 5 => some ⟨value, OpLiteral._FX65, OpKind.MEM⟩
    | _, _ => none
  | _ => none

/-- The per-word check of `tests::test_opcode_parse`: the word fails to
decode. -/
def decodeFails (w : Nat) : Bool :=
  (OpCode.tryFrom w).isNone

/-- Number of 16-bit words in `[0, 65535]` on which decoding fails, i.e. the
count computed by `tests::test_opcode_parse` extended to the full closed
16-bit domain (the test's loop `u16::MIN..u16::MAX` is half-open, so the test
itself never evaluates the word `0xFFFF`). -/
def decodeFailureCount : Nat :=
  (List.range 65536).countP decodeFails

/-! ## virtual_machine/register.rs -/

/-- Rust `RegisterError` (the `UnknownIdentifier` message payload is
dropped). -/
inductive RegisterError where
  | UnknownIdentifier
  | AddressValueLargerThan12Bytes
  | RegisterIndexOutOfBounds
  deriving DecidableEq, Repr

/-- `DataRegisters::read_idx`: bounds-checked read of one of the 16 8-bit
registers. -/
def readIdx (regs : Nat → Nat) (i : Nat) : Except RegisterError Nat :=
  if 16 ≤ i then .error RegisterError.RegisterIndexOutOfBounds
  else .ok (regs i)

/-- `DataRegisters::write_idx`: bounds-checked write.  The Rust cell type is
`u8`, hence the `% 256` on the stored value.  (The source returns the
previous value; callers discard it, and we return the updated bank, i.e. the
`&mut self` effect.) -/
def writeIdx (regs : Nat → Nat) (i v : Nat) : Except RegisterError (Nat → Nat) :=
  if 16 ≤ i then .error RegisterError.RegisterIndexOutOfBounds
  else .ok (fun j => if j = i then v % 256 else regs j)

/-- `DataRegisters::read`: parse the hex-character identifier with
`from_str_radix(_, 16)`, then `read_idx`. -/
def readReg (regs : Nat → Nat) (c : Char) : Except RegisterError Nat :=
  match hexVal c with
  | some i => readIdx regs i
  | none => .error RegisterError.UnknownIdentifier

/-- `DataRegisters::write`: parse the hex-character identifier, then
`write_idx`. -/
def writeReg (regs : Nat → Nat) (c : Char) (v : Nat) :
    Except RegisterError (Nat → Nat) :=
  match hexVal c with
  | some i => writeIdx regs i v
  | none => .error RegisterError.UnknownIdentifier

/-- `AddressRegister::write`: every write is masked with `0x0FFF` (and always
returns `Ok`). -/
def addrWrite (v : Nat) : Nat :=
  v % 4096

/-- `ProgramCounter` derefs to an `AddressRegister`; `step(size)` writes
`read() + size`, so it also masks to 12 bits. -/
def pcStep (pc size : Nat) : Nat :=
  addrWrite (pc + size)

/-- `Screen::clear`: the source loops over the 64*32 cells setting each to
`false`. -/
def screenClear (s : Nat → Bool) : Nat → Bool :=
  fun i => if i < 64 * 32 then false else s i

/-- `Timer::tick` is `self.0 = self.0 - 1` on a `u8` with no zero guard:
release-profile wrapping subtraction, i.e. `(t + 255) % 256` for `t < 256`
(in a debug build the same expression panics at `t = 0`; either way a zero
timer does not stay at zero). -/
def Timer.tick (t : Nat) : Nat :=
  (t + 255) % 256

/-- `Timer::reset` stores the given `u8`. -/
def Timer.reset (_t v : Nat) : Nat :=
  v

/-- `Keypad::is_pressed`: look up key `key & 0x0F` in the 16 booleans. -/
def keypadIsPressed (pressed : Nat → Bool) (key : Nat) : Bool :=
  pressed (key % 16)

/-! ## virtual_machine/fonts.rs and memory.rs -/

/-- `FontSet::default`: the 80-byte glyph table (16 glyphs x 5 rows). -/
def fontSetDefault : List Nat :=
  [0xF0, 0x90, 0x90, 0x90, 0xF0,
   0x20, 0x60, 0x20, 0x20, 0x70,
   0xF0, 0x10, 0xF0, 0x80, 0xF0,
   0xF0, 0x10, 0xF0, 0x10, 0xF0,
   0x90, 0x90, 0xF0, 0x10, 0x10,
   0xF0, 0x80, 0xF0, 0x10, 0xF0,
   0xF0, 0x80, 0xF0, 0x90, 0xF0,
   0xF0, 0x10, 0x20, 0x40, 0x40,
   0xF0, 0x90, 0xF0, 0x90, 0xF0,
   0xF0, 0x90, 0xF0, 0x10, 0xF0,
   0xF0, 0x90, 0xF0, 0x90, 0x90,
   0xE0, 0x90, 0xE0, 0x90, 0xE0,
   0xF0, 0x80, 0x80, 0x80, 0xF0,
   0xE0, 0x90, 0x90, 0x90, 0xE0,
   0xF0, 0x80, 0xF0, 0x80, 0xF0,
   0xF0, 0x80, 0xF0, 0x80, 0x80]

/-- A single store into the 4096-byte memory (`u8` cells, hence `% 256`). -/
def memWrite (mem : Nat → Nat) (a v : Nat) : Nat → Nat :=
  fun i => if i = a then v % 256 else mem i

/-- `Memory::load_font_data`: `for idx in 0..fontset_size` store
`fontset[idx]` at `offset + idx`. -/
def loadFontData (mem : Nat → Nat) (offset : Nat) : Nat → Nat :=
  (List.range fontSetDefault.length).foldl
    (fun m idx => memWrite m (offset + idx) (fontSetDefault.getD idx 0)) mem

/-! ## virtual_machine/chip8.rs -/

/-- The machine state owned by `Chip8`.  `rng: ThreadRng` is replaced by the
environment input `Env.randByte`, and the keypad's host event stream by
`Env.keyEvent`. -/
structure Chip8 where
  memory : Nat → Nat
  dataRegisters : Nat → Nat
  addressRegister : Nat
  programCounter : Nat
  stack : Nat → Nat
  stackPointer : Nat
  shouldDraw : Bool
  keypadPressed : Nat → Bool
  delayTimer : Nat
  soundTimer : Nat
  screen : Nat → Bool

/-- Host-environment inputs consumed during one instruction: the byte
produced by `rng.gen::<u8>()` (opcode CXNN) and the outcome of
`Keypad::read()` (opcode FX0A).  `Keypad::read` performs one blocking
`crossterm::event::read()` and returns `Some(mapped_code)` if that single
event is a key event with a mapped code, `None` otherwise. -/
structure Env where
  randByte : Nat
  keyEvent : Option Nat

/-- The `Box<dyn Error>` channel of `apply_opcode`/`step`: either a
`RegisterError` or an `OpCodeError::Unknown`. -/
inductive VmError where
  | reg : RegisterError → VmError
  | opcodeUnknown : Nat → VmError
  deriving DecidableEq, Repr

/-- `Chip8::new` = `Chip8::default()`: all zeroes/false, except the program
counter whose `Default` is `0x200`. -/
def Chip8.new : Chip8 :=
  { memory := fun _ => 0
    dataRegisters := fun _ => 0
    addressRegister := 0
    programCounter := 0x200
    stack := fun _ => 0
    stackPointer := 0
    shouldDraw := false
    keypadPressed := fun _ => false
    delayTimer := 0
    soundTimer := 0
    screen := fun _ => false }

/-- `Chip8::initialize`: write `0x200` to the program counter and load the
default font set at memory offset 0. -/
def Chip8.initialized (s : Chip8) : Chip8 :=
  { s with
    programCounter := addrWrite 0x200
    memory := loadFontData s.memory 0 }

/-- `Chip8::fetch_opcode`: big-endian concatenation of the two bytes at the
program counter; the intermediate `usize` shift is cast `as u16`. -/
def Chip8.fetchOpcode (s : Chip8) : Nat :=
  (s.memory s.programCounter * 256 % 65536) ||| s.memory (s.programCounter + 1)

/-- The register-identifier character extracted by almost every arm of
`apply_opcode`: `NibblePair::from(((value & 0x0F00) >> 8) as u8).low`
rendered as a hex character. -/
def registerXChar (value : Nat) : Char :=
  toHexChar (NibblePair.ofByte (value % 4096 / 256)).low

/-- Likewise for the Y operand: `NibblePair::from(((value & 0x00F0) >> 4) as
u8).low` as a hex character. -/
def registerYChar (value : Nat) : Char :=
  toHexChar (NibblePair.ofByte (value / 16 % 16)).low

/-- The FX55 loop: `for register_idx in 0..=breakpoint` store
`read_idx(register_idx)` at `current_address`, incrementing the address. -/
def storeRegistersLoop (regs : Nat → Nat) :
    (Nat → Nat) → Nat → List Nat → Except RegisterError ((Nat → Nat) × Nat)
  | mem, addr, [] => .ok (mem, addr)
  | mem, addr, k :: rest =>
    match readIdx regs k with
    | .error e => .error e
    | .ok v => storeRegistersLoop regs (memWrite mem addr v) (addr + 1) rest

/-- The FX65 loop: `for register_idx in 0..=breakpoint` fill
`write_idx(register_idx)` from `memory[current_address]`, incrementing the
address. -/
def fillRegistersLoop (mem : Nat → Nat) :
    (Nat → Nat) → Nat → List Nat → Except RegisterError ((Nat → Nat) × Nat)
  | regs, addr, [] => .ok (regs, addr)
  | regs, addr, k :: rest =>
    match writeIdx regs k (mem addr) with
    | .error e => .error e
    | .ok regs' => fillRegistersLoop mem regs' (addr + 1) rest

/-- One row of the DXYN sprite blit (`for xline in 0..8`): if the sprite bit
is set, record a collision in register F when the target pixel was on, then
XOR-flip the pixel. -/
def drawRow (pixel dataX dataY yline : Nat) :
    ((Nat → Nat) × (Nat → Bool)) → List Nat →
    Except RegisterError ((Nat → Nat) × (Nat → Bool))
  | acc, [] => .ok acc
  | (regs, screen), xline :: rest =>
    if pixel &&& (0x80 >>> xline) ≠ 0 then
      let pos := dataX + xline + (dataY + yline) * 64
      if screen pos then
        match writeIdx regs 15 1 with
        | .error e => .error e
        | .ok regs' =>
          drawRow pixel dataX dataY yline
            (regs', fun i => if i = pos then !screen pos else screen i) rest
      else
        drawRow pixel dataX dataY yline
          (regs, fun i => if i = pos then !screen pos else screen i) rest
    else
      drawRow pixel dataX dataY yline (regs, screen) rest

/-- The outer DXYN loop (`for yline in 0..num_rows`): read the sprite row at
`address_register + yline` and blit it. -/
def drawRows (mem : Nat → Nat) (addressRegister dataX dataY : Nat) :
    ((Nat → Nat) × (Nat → Bool)) → List Nat →
    Except RegisterError ((Nat → Nat) × (Nat → Bool))
  | acc, [] => .ok acc
  | acc, yline :: rest =>
    let pixel := mem (addressRegister + yline)
    match drawRow pixel dataX dataY yline acc (List.range 8) with
    | .error e => .error e
    | .ok acc' => drawRows mem addressRegister dataX dataY acc' rest

/-- `Chip8::apply_opcode`.  The leading `unreachable!` for an unknown opcode
is modelled as an error (the caller `step` decodes first and never reaches
it).  Every `?` of the source is an explicit `match` on the `Except` here;
the `u8` arithmetic uses release-profile wrapping (`% 256`, and
`x + 256 - y` for wrapping subtraction of in-range operands). -/
def applyOpcode (opcode : Nat) (env : Env) (s : Chip8) : Except VmError Chip8 :=
  match OpCode.tryFrom opcode with
  | none => .error (VmError.opcodeUnknown opcode)
  | some oc =>
    match oc.literal with
    | OpLiteral._0NNN =>
      -- Call machine code routine at NNN: not implemented, nothing mutated.
      .ok s
    | OpLiteral._00E0 =>
      .ok { s with
            screen := screenClear s.screen
            programCounter := pcStep s.programCounter 2 }
    | OpLiteral._00EE =>
      -- `self.stack_pointer -= 1` on a u16: wrapping decrement.
      let sp := (s.stackPointer + 65535) % 65536
      let previousProgramCounter := s.stack sp
      .ok { s with
            stackPointer := sp
            stack := fun i => if i = sp then 0 else s.stack i
            programCounter := pcStep (addrWrite (previousProgramCounter &&& 0x0FFF)) 2 }
    | OpLiteral._1NNN =>
      .ok { s with programCounter := addrWrite (opcode % 4096) }
    | OpLiteral._2NNN =>
      .ok { s with
            stack := fun i => if i = s.stackPointer then s.programCounter % 65536
                              else s.stack i
            stackPointer := (s.stackPointer + 1) % 65536
            programCounter := addrWrite (opcode % 4096) }
    | OpLiteral._3XNN =>
      -- The source renders `quad.high` of the already-4-bit X field, which
      -- is always the digit '0'.
      let registerIdentifier :=
        toHexChar (NibblePair.ofByte (opcode % 4096 / 256)).high
      let data := opcode % 256
      let s₁ := { s with programCounter := pcStep s.programCounter 2 }
      -- `if let Ok(value_in_register)`: a read error is silently skipped.
      match readReg s₁.dataRegisters registerIdentifier with
      | .ok valueInRegister =>
        if valueInRegister = data then
          .ok { s₁ with programCounter := pcStep s₁.programCounter 2 }
        else .ok s₁
      | .error _ => .ok s₁
    | OpLiteral._4XNN =>
      let registerIdentifier :=
        toHexChar (NibblePair.ofByte (opcode % 4096 / 256)).low
      let data := opcode % 256
      let s₁ := { s with programCounter := pcStep s.programCounter 2 }
      match readReg s₁.dataRegisters registerIdentifier with
      | .ok valueInRegister =>
        if valueInRegister ≠ data then
          .ok { s₁ with programCounter := pcStep s₁.programCounter 2 }
        else .ok s₁
      | .error _ => .ok s₁
    | OpLiteral._5XY0 =>
      match readReg s.dataRegisters (registerXChar opcode) with
      | .error e => .error (VmError.reg e)
      | .ok dataX =>
        match readReg s.dataRegisters (registerYChar opcode) with
        | .error e => .error (VmError.reg e)
        | .ok dataY =>
          let s₁ := { s with programCounter := pcStep s.programCounter 2 }
          if dataX = dataY then
            .ok { s₁ with programCounter := pcStep s₁.programCounter 2 }
          else .ok s₁
    | OpLiteral._6XNN =>
      match writeReg s.dataRegisters (registerXChar opcode) (opcode % 256) with
      | .error e => .error (VmError.reg e)
      | .ok regs =>
        .ok { s with
              dataRegisters := regs
              programCounter := pcStep s.programCounter 2 }
    | OpLiteral._7XNN =>
      match readReg s.dataRegisters (registerXChar opcode) with
      | .error e => .error (VmError.reg e)
      | .ok dataX =>
        match writeReg s.dataRegisters (registerXChar opcode)
                ((dataX + opcode % 256) % 256) with
        | .error e => .error (VmError.reg e)
        | .ok regs =>
          .ok { s with
                dataRegisters := regs
                programCounter := pcStep s.programCounter 2 }
    | OpLiteral._8XY0 =>
      match readReg s.dataRegisters (registerYChar opcode) with
      | .error e => .error (VmError.reg e)
      | .ok dataY =>
        match writeReg s.dataRegisters (registerXChar opcode) dataY with
        | .error e => .error (VmError.reg e)
        | .ok regs =>
          .ok { s with
                dataRegisters := regs
                programCounter := pcStep s.programCounter 2 }
    | OpLiteral._8XY1 =>
      match readReg s.dataRegisters (registerYChar opcode) with
      | .error e => .error (VmError.reg e)
      | .ok dataY =>
        match readReg s.dataRegisters (registerXChar opcode) with
        | .error e => .error (VmError.reg e)
        | .ok dataX =>
          match writeReg s.dataRegisters (registerXChar opcode) (dataY ||| dataX) with
          | .error e => .error (VmError.reg e)
          | .ok regs =>
            .ok { s with
                  dataRegisters := regs
                  programCounter := pcStep s.programCounter 2 }
    | OpLiteral._8XY2 =>
      match readReg s.dataRegisters (registerYChar opcode) with
      | .error e => .error (VmError.reg e)
      | .ok dataY =>
        match readReg s.dataRegisters (registerXChar opcode) with
        | .error e => .error (VmError.reg e)
        | .ok dataX =>
          match writeReg s.dataRegisters (registerXChar opcode) (dataY &&& dataX) with
          | .error e => .error (VmError.reg e)
          | .ok regs =>
            .ok { s with
                  dataRegisters := regs
                  programCounter := pcStep s.programCounter 2 }
    | OpLiteral._8XY3 =>
      match readReg s.dataRegisters (registerYChar opcode) with
      | .error e => .error (VmError.reg e)
      | .ok dataY =>
        match readReg s.dataRegisters (registerXChar opcode) with
        | .error e => .error (VmError.reg e)
        | .ok dataX =>
          match writeReg s.dataRegisters (registerXChar opcode) (dataY ^^^ dataX) with
          | .error e => .error (VmError.reg e)
          | .ok regs =>
            .ok { s with
                  dataRegisters := regs
                  programCounter := pcStep s.programCounter 2 }
    | OpLiteral._8XY4 =>
      match readReg s.dataRegisters (registerYChar opcode) with
      | .error e => .error (VmError.reg e)
      | .ok dataY =>
        match readReg s.dataRegisters (registerXChar opcode) with
        | .error e => .error (VmError.reg e)
        | .ok dataX =>
          match writeReg s.dataRegisters 'f' (if 255 < dataX + dataY then 1 else 0) with
          | .error e => .error (VmError.reg e)
          | .ok regsF =>
            match writeReg regsF (registerXChar opcode) ((dataY + dataX) % 256) with
            | .error e => .error (VmError.reg e)
            | .ok regs =>
              .ok { s with
                    dataRegisters := regs
                    programCounter := pcStep s.programCounter 2 }
    | OpLiteral._8XY5 =>
      match readReg s.dataRegisters (registerYChar opcode) with
      | .error e => .error (VmError.reg e)
      | .ok dataY =>
        match readReg s.dataRegisters (registerXChar opcode) with
        | .error e => .error (VmError.reg e)
        | .ok dataX =>
          -- Source condition: `data_x as u16 > 0xFF - data_y as u16`.
          match writeReg s.dataRegisters 'f' (if 255 - dataY < dataX then 1 else 0) with
          | .error e => .error (VmError.reg e)
          | .ok regsF =>
            match writeReg regsF (registerXChar opcode) ((dataX + 256 - dataY) % 256) with
            | .error e => .error (VmError.reg e)
            | .ok regs =>
              .ok { s with
                    dataRegisters := regs
                    programCounter := pcStep s.programCounter 2 }
    | OpLiteral._8XY6 =>
      match readReg s.dataRegisters (registerXChar opcode) with
      | .error e => .error (VmError.reg e)
      | .ok dataX =>
        match writeReg s.dataRegisters 'f' (dataX % 2) with
        | .error e => .error (VmError.reg e)
        | .ok regsF =>
          match writeReg regsF (registerXChar opcode) (dataX / 2) with
          | .error e => .error (VmError.reg e)
          | .ok regs =>
            .ok { s with
                  dataRegisters := regs
                  programCounter := pcStep s.programCounter 2 }
    | OpLiteral._8XY7 =>
      match readReg s.dataRegisters (registerYChar opcode) with
      | .error e => .error (VmError.reg e)
      | .ok dataY =>
        match readReg s.dataRegisters (registerXChar opcode) with
        | .error e => .error (VmError.reg e)
        | .ok dataX =>
          match writeReg s.dataRegisters 'f' (if 255 - dataX < dataY then 1 else 0) with
          | .error e => .error (VmError.reg e)
          | .ok regsF =>
            match writeReg regsF (registerXChar opcode) ((dataY + 256 - dataX) % 256) with
            | .error e => .error (VmError.reg e)
            | .ok regs =>
              .ok { s with
                    dataRegisters := regs
                    programCounter := pcStep s.programCounter 2 }
    | OpLiteral._8XYE =>
      match readReg s.dataRegisters (registerXChar opcode) with
      | .error e => .error (VmError.reg e)
      | .ok dataX =>
        -- Source: `write('f', data_x & (1u8 << 7))`, i.e. 0 or 128.
        match writeReg s.dataRegisters 'f' (dataX &&& 128) with
        | .error e => .error (VmError.reg e)
        | .ok regsF =>
          match writeReg regsF (registerXChar opcode) (dataX * 2 % 256) with
          | .error e => .error (VmError.reg e)
          | .ok regs =>
            .ok { s with
                  dataRegisters := regs
                  programCounter := pcStep s.programCounter 2 }
    | OpLiteral._9XY0 =>
      match readReg s.dataRegisters (registerYChar opcode) with
      | .error e => .error (VmError.reg e)
      | .ok dataY =>
        match readReg s.dataRegisters (registerXChar opcode) with
        | .error e => .error (VmError.reg e)
        | .ok dataX =>
          let s₁ := { s with programCounter := pcStep s.programCounter 2 }
          if dataX ≠ dataY then
            .ok { s₁ with programCounter := pcStep s₁.programCounter 2 }
          else .ok s₁
    | OpLiteral._ANNN =>
      .ok { s with
            addressRegister := addrWrite (opcode % 4096)
            programCounter := pcStep s.programCounter 2 }
    | OpLiteral._BNNN =>
      match readReg s.dataRegisters '0' with
      | .error e => .error (VmError.reg e)
      | .ok data0 =>
        .ok { s with
              programCounter := addrWrite ((opcode % 4096 + data0) % 4096) }
    | OpLiteral._CXNN =>
      match writeReg s.dataRegisters (registerXChar opcode)
              (opcode % 256 &&& env.randByte) with
      | .error e => .error (VmError.reg e)
      | .ok regs =>
        .ok { s with
              dataRegisters := regs
              programCounter := pcStep s.programCounter 2 }
    | OpLiteral._DXYN =>
      match readReg s.dataRegisters (registerXChar opcode) with
      | .error e => .error (VmError.reg e)
      | .ok dataX =>
        match readReg s.dataRegisters (registerYChar opcode) with
        | .error e => .error (VmError.reg e)
        | .ok dataY =>
          let numRows := (NibblePair.ofByte (opcode % 16)).low
          match writeIdx s.dataRegisters 15 0 with
          | .error e => .error (VmError.reg e)
          | .ok regs0 =>
            match drawRows s.memory s.addressRegister dataX dataY
                    (regs0, s.screen) (List.range numRows) with
            | .error e => .error (VmError.reg e)
            | .ok (regs, screen) =>
              .ok { s with
                    dataRegisters := regs
                    screen := screen
                    shouldDraw := true
                    programCounter := pcStep s.programCounter 2 }
    | OpLiteral._EX9E =>
      match readReg s.dataRegisters (registerXChar opcode) with
      | .error e => .error (VmError.reg e)
      | .ok dataX =>
        let s₁ := { s with programCounter := pcStep s.programCounter 2 }
        if keypadIsPressed s.keypadPressed dataX then
          .ok { s₁ with programCounter := pcStep s₁.programCounter 2 }
        else .ok s₁
    | OpLiteral._EXA1 =>
      match readReg s.dataRegisters (registerXChar opcode) with
      | .error e => .error (VmError.reg e)
      | .ok dataX =>
        let s₁ := { s with programCounter := pcStep s.programCounter 2 }
        if !keypadIsPressed s.keypadPressed dataX then
          .ok { s₁ with programCounter := pcStep s₁.programCounter 2 }
        else .ok s₁
    | OpLiteral._FX07 =>
      match writeReg s.dataRegisters (registerXChar opcode) s.delayTimer with
      | .error e => .error (VmError.reg e)
      | .ok regs =>
        .ok { s with
              dataRegisters := regs
              programCounter := pcStep s.programCounter 2 }
    | OpLiteral._FX0A =>
      -- `if let Some(key_event) = self.keypad.read()` writes the register;
      -- the program counter is stepped afterwards in either case.
      match env.keyEvent with
      | some keyEvent =>
        match writeReg s.dataRegisters (registerXChar opcode) (keyEvent % 16) with
        | .error e => .error (VmError.reg e)
        | .ok regs =>
          .ok { s with
                dataRegisters := regs
                programCounter := pcStep s.programCounter 2 }
      | none =>
        .ok { s with programCounter := pcStep s.programCounter 2 }
    | OpLiteral._FX15 =>
      match readReg s.dataRegisters (registerXChar opcode) with
      | .error e => .error (VmError.reg e)
      | .ok dataX =>
        .ok { s with
              delayTimer := Timer.reset s.delayTimer dataX
              programCounter := pcStep s.programCounter 2 }
    | OpLiteral._FX18 =>
      match readReg s.dataRegisters (registerXChar opcode) with
      | .error e => .error (VmError.reg e)
      | .ok dataX =>
        .ok { s with
              soundTimer := Timer.reset s.soundTimer dataX
              programCounter := pcStep s.programCounter 2 }
    | OpLiteral._FX1E =>
      match readReg s.dataRegisters (registerXChar opcode) with
      | .error e => .error (VmError.reg e)
      | .ok dataX =>
        .ok { s with
              addressRegister := addrWrite ((s.addressRegister + dataX) % 65536 % 4096)
              programCounter := pcStep s.programCounter 2 }
    | OpLiteral._FX29 =>
      match readReg s.dataRegisters (registerXChar opcode) with
      | .error e => .error (VmError.reg e)
      | .ok dataXRaw =>
        let dataX := dataXRaw % 16
        let spriteLocation := 4096 - 80 + dataX * 5
        .ok { s with
              addressRegister := addrWrite (spriteLocation % 65536)
              programCounter := pcStep s.programCounter 2 }
    | OpLiteral._FX33 =>
      match readReg s.dataRegisters (registerXChar opcode) with
      | .error e => .error (VmError.reg e)
      | .ok dataXRaw =>
        -- Source: `data_x = read(register_x)? & 0x0F` before the BCD split.
        let dataX := dataXRaw % 16
        let m1 := memWrite s.memory s.addressRegister (dataX / 100)
        let m2 := memWrite m1 (s.addressRegister + 1) (dataX / 10 % 10)
        let m3 := memWrite m2 (s.addressRegister + 2) (dataX % 100 % 10)
        .ok { s with
              memory := m3
              programCounter := pcStep s.programCounter 2 }
    | OpLiteral._FX55 =>
      match hexVal (registerXChar opcode) with
      | none => .error (VmError.reg RegisterError.UnknownIdentifier)
      | some registerBreakpoint =>
        match storeRegistersLoop s.dataRegisters s.memory s.addressRegister
                (List.range (registerBreakpoint + 1)) with
        | .error e => .error (VmError.reg e)
        | .ok (mem, _) =>
          .ok { s with
                memory := mem
                programCounter := pcStep s.programCounter 2 }
    | OpLiteral._FX65 =>
      match hexVal (registerXChar opcode) with
      | none => .error (VmError.reg RegisterError.UnknownIdentifier)
      | some registerBreakpoint =>
        match fillRegistersLoop s.memory s.dataRegisters s.addressRegister
                (List.range (registerBreakpoint + 1)) with
        | .error e => .error (VmError.reg e)
        | .ok (regs, _) =>
          .ok { s with
                dataRegisters := regs
                programCounter := pcStep s.programCounter 2 }

/-- `Chip8::step`: fetch, decode (the `OpCode::try_from(opcode)?` inside the
trace `println!` is where a decode failure propagates, before any
execution), apply, then tick each timer that is above zero. -/
def Chip8.step (env : Env) (s : Chip8) : Except VmError Chip8 :=
  let opcode := s.fetchOpcode
  match OpCode.tryFrom opcode with
  | none => .error (VmError.opcodeUnknown opcode)
  | some _ =>
    match applyOpcode opcode env s with
    | .error e => .error e
    | .ok s₁ =>
      let s₂ := if 0 < s₁.delayTimer
                then { s₁ with delayTimer := Timer.tick s₁.delayTimer } else s₁
      let s₃ := if 0 < s₂.soundTimer
                then { s₂ with soundTimer := Timer.tick s₂.soundTimer } else s₂
      .ok s₃

/-- The `&mut self` view of `Chip8::step`: on the decode-failure path the
error is raised before any state mutation, so the caller observes the
original state together with the error. -/
def Chip8.stepMut (env : Env) (s : Chip8) : Chip8 × Option VmError :=
  match Chip8.step env s with
  | .ok s' => (s', none)
  | .error e => (s, some e)

/-! ## Counting decode failures

`decodeFailureCount` is settled analytically: the 16-bit domain is split by
leading nibble; for leading nibbles that always decode the count contributes
zero, and for the four partially-decoding leading nibbles the failure
predicate is independent of the second nibble, leaving small 256-element
counts that the kernel evaluates directly. -/

lemma countP_range_mul (p : Nat → Bool) (b : Nat) :
    ∀ a, (List.range (a * b)).countP p
      = ((List.range a).map fun i => (List.range b).countP fun j => p (i * b + j)).sum
  | 0 => by simp
  | a + 1 => by
    rw [Nat.succ_mul, List.range_add, List.countP_append, List.countP_map,
      countP_range_mul p b a, List.range_succ, List.map_append, List.sum_append]
    simp [Function.comp_def]

lemma decodeFails_first0 (r : Nat) (hr : r < 4096) : decodeFails (0 + r) = false := by
  have h1 : (0 + r) / 256 % 256 / 16 = 0 := by omega
  simp only [decodeFails, OpCode.tryFrom, h1]
  split <;> rfl

lemma decodeFails_first1 (r : Nat) (hr : r < 4096) : decodeFails (4096 + r) = false := by
  have h1 : (4096 + r) / 256 % 256 / 16 = 1 := by omega
  simp only [decodeFails, OpCode.tryFrom, h1]
  rfl

lemma decodeFails_first2 (r : Nat) (hr : r < 4096) : decodeFails (8192 + r) = false := by
  have h1 : (8192 + r) / 256 % 256 / 16 = 2 := by omega
  simp only [decodeFails, OpCode.tryFrom, h1]
  rfl

lemma decodeFails_first3 (r : Nat) (hr : r < 4096) : decodeFails (12288 + r) = false := by
  have h1 : (12288 + r) / 256 % 256 / 16 = 3 := by omega
  simp only [decodeFails, OpCode.tryFrom, h1]
  rfl

lemma decodeFails_first4 (r : Nat) (hr : r < 4096) : decodeFails (16384 + r) = false := by
  have h1 : (16384 + r) / 256 % 256 / 16 = 4 := by omega
  simp only [decodeFails, OpCode.tryFrom, h1]
  rfl

lemma decodeFails_first5 (r : Nat) (hr : r < 4096) : decodeFails (20480 + r) = false := by
  have h1 : (20480 + r) / 256 % 256 / 16 = 5 := by omega
  simp only [decodeFails, OpCode.tryFrom, h1]
  rfl

lemma decodeFails_first6 (r : Nat) (hr : r < 4096) : decodeFails (24576 + r) = false := by
  have h1 : (24576 + r) / 256 % 256 / 16 = 6 := by omega
  simp only [decodeFails, OpCode.tryFrom, h1]
  rfl

lemma decodeFails_first7 (r : Nat) (hr : r < 4096) : decodeFails (28672 + r) = false := by
  have h1 : (28672 + r) / 256 % 256 / 16 = 7 := by omega
  simp only [decodeFails, OpCode.tryFrom, h1]
  rfl

lemma decodeFails_firstA (r : Nat) (hr : r < 4096) : decodeFails (40960 + r) = false := by
  have h1 : (40960 + r) / 256 % 256 / 16 = 10 := by omega
  simp only [decodeFails, OpCode.tryFrom, h1]
  rfl

lemma decodeFails_firstB (r : Nat) (hr : r < 4096) : decodeFails (45056 + r) = false := by
  have h1 : (45056 + r) / 256 % 256 / 16 = 11 := by omega
  simp only [decodeFails, OpCode.tryFrom, h1]
  rfl

lemma decodeFails_firstC (r : Nat) (hr : r < 4096) : decodeFails (49152 + r) = false := by
  have h1 : (49152 + r) / 256 % 256 / 16 = 12 := by omega
  simp only [decodeFails, OpCode.tryFrom, h1]
  rfl

lemma decodeFails_firstD (r : Nat) (hr : r < 4096) : decodeFails (53248 + r) = false := by
  have h1 : (53248 + r) / 256 % 256 / 16 = 13 := by omega
  simp only [decodeFails, OpCode.tryFrom, h1]
  rfl

/-- For leading nibble 8 the decode outcome depends only on the last nibble,
so it is independent of the second nibble. -/
lemma decodeFails_indep8 (i j : Nat) (hi : i < 16) (hj : j < 256) :
    decodeFails (32768 + (i * 256 + j)) = decodeFails (32768 + j) := by
  have h1 : (32768 + (i * 256 + j)) / 256 % 256 / 16 = 8 := by omega
  have h2 : (32768 + j) / 256 % 256 / 16 = 8 := by omega
  have h3 : (32768 + (i * 256 + j)) % 256 % 16 = j % 256 % 16 := by omega
  have h3b : (32768 + j) % 256 % 16 = j % 256 % 16 := by omega
  simp only [decodeFails, OpCode.tryFrom, h1, h2, h3, h3b]
  have hu : j % 256 % 16 < 16 := by omega
  generalize j % 256 % 16 = u at hu ⊢
  interval_cases u <;> rfl

lemma decodeFails_indep9 (i j : Nat) (hi : i < 16) (hj : j < 256) :
    decodeFails (36864 + (i * 256 + j)) = decodeFails (36864 + j) := by
  have h1 : (36864 + (i * 256 + j)) / 256 % 256 / 16 = 9 := by omega
  have h2 : (36864 + j) / 256 % 256 / 16 = 9 := by omega
  have h3 : (36864 + (i * 256 + j)) % 256 % 16 = j % 256 % 16 := by omega
  have h3b : (36864 + j) % 256 % 16 = j % 256 % 16 := by omega
  simp only [decodeFails, OpCode.tryFrom, h1, h2, h3, h3b]
  have hu : j % 256 % 16 < 16 := by omega
  generalize j % 256 % 16 = u at hu ⊢
  interval_cases u <;> rfl

lemma decodeFails_indepE (i j : Nat) (hi : i < 16) (hj : j < 256) :
    decodeFails (57344 + (i * 256 + j)) = decodeFails (57344 + j) := by
  have h1 : (57344 + (i * 256 + j)) / 256 % 256 / 16 = 14 := by omega
  have h2 : (57344 + j) / 256 % 256 / 16 = 14 := by omega
  have h3 : (57344 + (i * 256 + j)) % 256 % 16 = j % 256 % 16 := by omega
  have h4 : (57344 + (i * 256 + j)) % 256 / 16 = j % 256 / 16 := by omega
  have h3b : (57344 + j) % 256 % 16 = j % 256 % 16 := by omega
  have h4b : (57344 + j) % 256 / 16 = j % 256 / 16 := by omega
  simp only [decodeFails, OpCode.tryFrom, h1, h2, h3, h4, h3b, h4b]
  have ht : j % 256 / 16 < 16 := by omega
  have hu : j % 256 % 16 < 16 := by omega
  generalize j % 256 / 16 = t at ht ⊢
  generalize j % 256 % 16 = u at hu ⊢
  interval_cases t <;> interval_cases u <;> rfl

lemma decodeFails_indepF (i j : Nat) (hi : i < 16) (hj : j < 256) :
    decodeFails (61440 + (i * 256 + j)) = decodeFails (61440 + j) := by
  have h1 : (61440 + (i * 256 + j)) / 256 % 256 / 16 = 15 := by omega
  have h2 : (61440 + j) / 256 % 256 / 16 = 15 := by omega
  have h3 : (61440 + (i * 256 + j)) % 256 % 16 = j % 256 % 16 := by omega
  have h4 : (61440 + (i * 256 + j)) % 256 / 16 = j % 256 / 16 := by omega
  have h3b : (61440 + j) % 256 % 16 = j % 256 % 16 := by omega
  have h4b : (61440 + j) % 256 / 16 = j % 256 / 16 := by omega
  simp only [decodeFails, OpCode.tryFrom, h1, h2, h3, h4, h3b, h4b]
  have ht : j % 256 / 16 < 16 := by omega
  have hu : j % 256 % 16 < 16 := by omega
  generalize j % 256 / 16 = t at ht ⊢
  generalize j % 256 % 16 = u at hu ⊢
  interval_cases t <;> interval_cases u <;> rfl

set_option maxRecDepth 4000 in
lemma decodeFails_byte8 : ((List.range 256).countP fun j => decodeFails (32768 + j)) = 112 := by
  decide

set_option maxRecDepth 4000 in
lemma decodeFails_byte9 : ((List.range 256).countP fun j => decodeFails (36864 + j)) = 240 := by
  decide

set_option maxRecDepth 4000 in
lemma decodeFails_byteE : ((List.range 256).countP fun j => decodeFails (57344 + j)) = 254 := by
  decide

set_option maxRecDepth 4000 in
lemma decodeFails_byteF : ((List.range 256).countP fun j => decodeFails (61440 + j)) = 247 := by
  decide

lemma countFail_chunk0 : ((List.range 4096).countP fun j => decodeFails (0 * 4096 + j)) = 0 :=
  List.countP_eq_zero.mpr fun r hr => by
    simpa using decodeFails_first0 r (List.mem_range.mp hr)

lemma countFail_chunk8 : ((List.range 4096).countP fun j => decodeFails (8 * 4096 + j)) = 1792 := by
  have h := countP_range_mul (fun j => decodeFails (8 * 4096 + j)) 256 16
  norm_num at h ⊢
  rw [h, List.map_congr_left (g := fun _ => 112) ?_]
  · decide
  · intro i hi
    rw [List.mem_range] at hi
    rw [List.countP_congr fun j hj => ?_, decodeFails_byte8]
    rw [List.mem_range] at hj
    simp [decodeFails_indep8 i j hi hj]

lemma countFail_chunk9 : ((List.range 4096).countP fun j => decodeFails (9 * 4096 + j)) = 3840 := by
  have h := countP_range_mul (fun j => decodeFails (9 * 4096 + j)) 256 16
  norm_num at h ⊢
  rw [h, List.map_congr_left (g := fun _ => 240) ?_]
  · decide
  · intro i hi
    rw [List.mem_range] at hi
    rw [List.countP_congr fun j hj => ?_, decodeFails_byte9]
    rw [List.mem_range] at hj
    simp [decodeFails_indep9 i j hi hj]

lemma countFail_chunkE : ((List.range 4096).countP fun j => decodeFails (14 * 4096 + j)) = 4064 := by
  have h := countP_range_mul (fun j => decodeFails (14 * 4096 + j)) 256 16
  norm_num at h ⊢
  rw [h, List.map_congr_left (g := fun _ => 254) ?_]
  · decide
  · intro i hi
    rw [List.mem_range] at hi
    rw [List.countP_congr fun j hj => ?_, decodeFails_byteE]
    rw [List.mem_range] at hj
    simp [decodeFails_indepE i j hi hj]

lemma countFail_chunkF : ((List.range 4096).countP fun j => decodeFails (15 * 4096 + j)) = 3952 := by
  have h := countP_range_mul (fun j => decodeFails (15 * 4096 + j)) 256 16
  norm_num at h ⊢
  rw [h, List.map_congr_left (g := fun _ => 247) ?_]
  · decide
  · intro i hi
    rw [List.mem_range] at hi
    rw [List.countP_congr fun j hj => ?_, decodeFails_byteF]
    rw [List.mem_range] at hj
    simp [decodeFails_indepF i j hi hj]

/-- The exact number of decode failures over the full closed 16-bit domain. -/
lemma decodeFailureCount_eq : decodeFailureCount = 13648 := by
  have h := countP_range_mul decodeFails 4096 16
  norm_num at h
  rw [decodeFailureCount, show (65536 : Nat) = 16 * 4096 by norm_num] at *
  rw [h, List.map_congr_left
    (g := fun i => if i = 8 then 1792 else if i = 9 then 3840
          else if i = 14 then 4064 else if i = 15 then 3952 else 0) ?_]
  · decide
  · intro i hi
    rw [List.mem_range] at hi
    interval_cases i
    · exact countFail_chunk0
    · exact List.countP_eq_zero.mpr fun r hr => by
        simpa using decodeFails_first1 r (List.mem_range.mp hr)
    · exact List.countP_eq_zero.mpr fun r hr => by
        simpa using decodeFails_first2 r (List.mem_range.mp hr)
    · exact List.countP_eq_zero.mpr fun r hr => by
        simpa using decodeFails_first3 r (List.mem_range.mp hr)
    · exact List.countP_eq_zero.mpr fun r hr => by
        simpa using decodeFails_first4 r (List.mem_range.mp hr)
    · exact List.countP_eq_zero.mpr fun r hr => by
        simpa using decodeFails_first5 r (List.mem_range.mp hr)
    · exact List.countP_eq_zero.mpr fun r hr => by
        simpa using decodeFails_first6 r (List.mem_range.mp hr)
    · exact List.countP_eq_zero.mpr fun r hr => by
        simpa using decodeFails_first7 r (List.mem_range.mp hr)
    · exact countFail_chunk8
    · exact countFail_chunk9
    · exact List.countP_eq_zero.mpr fun r hr => by
        simpa using decodeFails_firstA r (List.mem_range.mp hr)
    · exact List.countP_eq_zero.mpr fun r hr => by
        simpa using decodeFails_firstB r (List.mem_range.mp hr)
    · exact List.countP_eq_zero.mpr fun r hr => by
        simpa using decodeFails_firstC r (List.mem_range.mp hr)
    · exact List.countP_eq_zero.mpr fun r hr => by
        simpa using decodeFails_firstD r (List.mem_range.mp hr)
    · exact countFail_chunkE
    · exact countFail_chunkF

/-! ## Register-access helper lemmas

Every register identifier the arms of `apply_opcode` construct is a hex
character rendered from a 4-bit value, so reading and writing through the
character round trip never fails. -/

lemma hexVal_toHexChar (n : Nat) (h : n < 16) : hexVal (toHexChar n) = some n := by
  interval_cases n <;> rfl

lemma readReg_registerXChar (regs : Nat → Nat) (w : Nat) :
    readReg regs (registerXChar w) = .ok (regs (w % 4096 / 256 % 16)) := by
  have h : w % 4096 / 256 % 16 < 16 := Nat.mod_lt _ (by norm_num)
  simp only [readReg, registerXChar, NibblePair.ofByte, hexVal_toHexChar _ h, readIdx,
    if_neg (Nat.not_le.mpr h)]

lemma readReg_registerYChar (regs : Nat → Nat) (w : Nat) :
    readReg regs (registerYChar w) = .ok (regs (w / 16 % 16 % 16)) := by
  have h : w / 16 % 16 % 16 < 16 := Nat.mod_lt _ (by norm_num)
  simp only [readReg, registerYChar, NibblePair.ofByte, hexVal_toHexChar _ h, readIdx,
    if_neg (Nat.not_le.mpr h)]

lemma writeReg_registerXChar (regs : Nat → Nat) (w v : Nat) :
    writeReg regs (registerXChar w) v
      = .ok (fun j => if j = w % 4096 / 256 % 16 then v % 256 else regs j) := by
  have h : w % 4096 / 256 % 16 < 16 := Nat.mod_lt _ (by norm_num)
  simp only [writeReg, registerXChar, NibblePair.ofByte, hexVal_toHexChar _ h, writeIdx,
    if_neg (Nat.not_le.mpr h)]

lemma writeReg_f (regs : Nat → Nat) (v : Nat) :
    writeReg regs 'f' v = .ok (fun j => if j = 15 then v % 256 else regs j) :=
  rfl

lemma readReg_zeroChar (regs : Nat → Nat) : readReg regs '0' = .ok (regs 0) :=
  rfl

lemma writeIdx_15 (regs : Nat → Nat) (v : Nat) :
    writeIdx regs 15 v = .ok (fun j => if j = 15 then v % 256 else regs j) :=
  rfl

lemma readReg_xHigh (regs : Nat → Nat) (w : Nat) :
    readReg regs (toHexChar (NibblePair.ofByte (w % 4096 / 256)).high)
      = .ok (regs 0) := by
  have h : (NibblePair.ofByte (w % 4096 / 256)).high = 0 := by
    simp only [NibblePair.ofByte]
    omega
  rw [h]
  rfl

lemma hexVal_registerXChar (w : Nat) :
    hexVal (registerXChar w) = some (w % 4096 / 256 % 16) := by
  have h : w % 4096 / 256 % 16 < 16 := Nat.mod_lt _ (by norm_num)
  simp only [registerXChar, NibblePair.ofByte, hexVal_toHexChar _ h]

/-- The environment used for concrete executions: the random byte is 0 and
the blocking keypad read returned no mapped key event. -/
def env0 : Env :=
  { randByte := 0, keyEvent := none }

/-! ## Program-counter discipline -/

/-- How an instruction form relates to the program counter: `baseAdvance`
forms advance it by 2; `skips` forms advance by 2 and conditionally by a
further 2; `assignsDirect` forms (jump, call, jump-plus-v0, return) write it;
`leavesUnchanged` is the empty machine-call arm. -/
inductive PcEffect where
  | leavesUnchanged
  | assignsDirect
  | skips
  | baseAdvance
  deriving DecidableEq, Repr

def pcClass : OpLiteral → PcEffect
  | OpLiteral._0NNN => PcEffect.leavesUnchanged
  | OpLiteral._00EE => PcEffect.assignsDirect
  | OpLiteral._1NNN => PcEffect.assignsDirect
  | OpLiteral._2NNN => PcEffect.assignsDirect
  | OpLiteral._BNNN => PcEffect.assignsDirect
  | OpLiteral._3XNN => PcEffect.skips
  | OpLiteral._4XNN => PcEffect.skips
  | OpLiteral._5XY0 => PcEffect.skips
  | OpLiteral._9XY0 => PcEffect.skips
  | OpLiteral._EX9E => PcEffect.skips
  | OpLiteral._EXA1 => PcEffect.skips
  | _ => PcEffect.baseAdvance

/-- Claim C5 — program-counter discipline per instruction form, amended: in
every successfully executed instruction, every form other than the
machine-call form advances the program counter by 2 for itself
(conditional-skip forms by at most one further 2); jump and call assign the
program counter directly; return assigns the popped address (masked to 12
bits) and then base-advances; the machine-call form 0NNN leaves the program
counter unchanged (its arm is empty). -/
theorem pc_displacement_by_form (env : Env) (s : Chip8) (w : Nat) (o : OpCode) (s' : Chip8)
    (hdec : OpCode.tryFrom w = some o)
    (happ : applyOpcode w env s = .ok s') :
    (pcClass o.literal = PcEffect.baseAdvance →
      s'.programCounter = pcStep s.programCounter 2) ∧
    (pcClass o.literal = PcEffect.skips →
      s'.programCounter = pcStep s.programCounter 2 ∨
      s'.programCounter = pcStep (pcStep s.programCounter 2) 2) ∧
    (o.literal = OpLiteral._0NNN → s'.programCounter = s.programCounter) ∧
    ((o.literal = OpLiteral._1NNN ∨ o.literal = OpLiteral._2NNN) →
      s'.programCounter = addrWrite (w % 4096)) ∧
    (o.literal = OpLiteral._BNNN →
      s'.programCounter = addrWrite ((w % 4096 + s.dataRegisters 0) % 4096)) ∧
    (o.literal = OpLiteral._00EE →
      s'.programCounter =
        pcStep (addrWrite (s.stack ((s.stackPointer + 65535) % 65536) &&& 0x0FFF)) 2) := by
  obtain ⟨v, lit, kind⟩ := o
  cases lit <;>
    (simp only [applyOpcode, hdec, readReg_registerXChar, readReg_registerYChar,
       writeReg_registerXChar, writeReg_f, readReg_zeroChar, writeIdx_15, readReg_xHigh,
       hexVal_registerXChar] at happ
     repeat' split at happ
     all_goals first
       | exact Except.noConfusion happ
       | (simp only [Except.ok.injEq] at happ
          subst happ
          refine ⟨fun hh => ?_, fun hh => ?_, fun hh => ?_, fun hh => ?_,
            fun hh => ?_, fun hh => ?_⟩ <;>
            simp_all [pcClass]))

/-! ## Claims -/

/-- Claim C1 — the 3XNN arm is meant to skip when register X (bits 11..8 of
the word) equals NN, but the source extracts `quad.high` of the already 4-bit
X field, which is always 0, so it compares register 0 instead.  With
register 1 = 5 and register 0 = 0, executing 0x3105 nets +2 (no skip) where
the claim demands +4; and with register 0 = 5 and register 1 = 0, executing
0x3105 nets +4 where the claim demands +2. -/
theorem skip_eq_imm_compares_v0 :
    ((applyOpcode 0x3105 env0
        { Chip8.new with dataRegisters := fun i => if i = 1 then 5 else 0 }).map
      (fun t => t.programCounter) = Except.ok 0x202) ∧
    ((applyOpcode 0x3105 env0
        { Chip8.new with dataRegisters := fun i => if i = 0 then 5 else 0 }).map
      (fun t => t.programCounter) = Except.ok 0x204) ∧
    (0x202 : Nat) ≠ 0x204 :=
  ⟨rfl, rfl, by decide⟩

/-- Claim C2 (counterexample) — the number of decode failures over the full
closed domain [0, 65535] is not 13647: the word 0xFFFF, which the test's
half-open loop never reaches, also fails to decode. -/
theorem decode_failure_count_ne_13647 : decodeFailureCount ≠ 13647 := by
  rw [decodeFailureCount_eq]
  decide

/-- Claim C2, amended — decoding is a pure total classification: every word
yields exactly one of a known form or a decode failure, and the number of
words in [0, 65535] that fail to decode is exactly 13648 (13647 of them lie
in the test's half-open range [0, 65535), plus the word 0xFFFF). -/
theorem decode_classification_and_count :
    (∀ w : Nat, (OpCode.tryFrom w).isSome ↔ ¬(OpCode.tryFrom w).isNone) ∧
    decodeFailureCount = 13648 := by
  refine ⟨fun w => ?_, decodeFailureCount_eq⟩
  cases OpCode.tryFrom w <;> simp

/-- Claim C3 — sub-reg (8XY5) is meant to set the flag to 1 iff
register X ≥ register Y (no borrow), but the source tests
`data_x > 0xFF - data_y`, the carry condition of addition.  With
register 0 = 5 and register 1 = 3, executing 0x8015 stores the correct
wrapped difference 2 in register 0 but sets the flag to 0, where the claim
(5 ≥ 3) demands 1. -/
theorem sub_reg_flag_uses_carry_condition :
    ((applyOpcode 0x8015 env0
        { Chip8.new with
          dataRegisters := fun i => if i = 0 then 5 else if i = 1 then 3 else 0 }).map
      (fun t => (t.dataRegisters 0, t.dataRegisters 15)) = Except.ok (2, 0)) ∧
    5 ≥ 3 ∧ (0 : Nat) ≠ 1 :=
  ⟨rfl, by decide, by decide⟩

/-- Claim C4 — font-address (FX29) computes `4096 - 80 + digit * 5`, but
`initialize` loads the 80-byte font at offset 0, so after initialization the
bytes at the computed address are all zero while the actual glyph of digit 0
(first byte 0xF0) sits at address 0. -/
theorem font_address_misses_loaded_font :
    ((applyOpcode 0xF029 env0 (Chip8.initialized Chip8.new)).map
      (fun t => (t.addressRegister, t.memory t.addressRegister, t.memory 0))
      = Except.ok (4016, 0, 0xF0)) ∧
    fontSetDefault.getD 0 0 = 0xF0 ∧ (0 : Nat) ≠ 0xF0 :=
  ⟨rfl, rfl, by decide⟩

/-- Claim C5 (counterexample) — the machine-call form 0NNN does not advance
the program counter: its arm is empty, so executing 0x0000 leaves the PC at
0x200 where the claim demands 0x202. -/
theorem machine_call_leaves_pc_unchanged :
    ((applyOpcode 0x0000 env0 Chip8.new).map (fun t => t.programCounter)
      = Except.ok 0x200) ∧
    (0x200 : Nat) ≠ pcStep 0x200 2 :=
  ⟨rfl, by decide⟩

/-- Claim C5 (witness) — a base-advance form: executing 0x6A05 (set-imm) from
a fresh machine advances the program counter by exactly 2. -/
theorem pc_displacement_by_form_witness :
    ∃ s', applyOpcode 0x6A05 env0 Chip8.new = Except.ok s' ∧
      s'.programCounter = pcStep 0x200 2 := by
  obtain ⟨s', hs'⟩ : ∃ s', applyOpcode 0x6A05 env0 Chip8.new = Except.ok s' := ⟨_, rfl⟩
  exact ⟨s', hs', (pc_displacement_by_form env0 Chip8.new 0x6A05 _ s' rfl hs').1 rfl⟩

/-- Claim C6 — shl (8XYE) is meant to store the most-significant BIT of
register X (0 or 1, i.e. `(x >> 7) & 1`) in the flag register before
shifting, but the source stores `x & 0x80` (0 or 128).  With
register 0 = 128, executing 0x800E leaves flag = 128 where the claim demands
`(128 >> 7) & 1 = 1`; the shifted result `(128 << 1) mod 256 = 0` itself is
as claimed. -/
theorem shl_flag_stores_masked_bit :
    ((applyOpcode 0x800E env0
        { Chip8.new with dataRegisters := fun i => if i = 0 then 128 else 0 }).map
      (fun t => (t.dataRegisters 15, t.dataRegisters 0)) = Except.ok (128, 0)) ∧
    (128 >>> 7) &&& 1 = 1 ∧ (128 : Nat) ≠ 1 :=
  ⟨rfl, by decide, by decide⟩

/-- Claim C7 (counterexample) — add-imm does not always leave the flag
register unchanged: when X = 0xF the flag register is the destination.
Executing 0x7F01 from a fresh machine changes register F from 0 to 1. -/
theorem add_imm_to_flag_register_changes_flag :
    ((applyOpcode 0x7F01 env0 Chip8.new).map (fun t => t.dataRegisters 15)
      = Except.ok 1) ∧
    Chip8.new.dataRegisters 15 = 0 ∧ (0 : Nat) ≠ 1 :=
  ⟨rfl, rfl, by decide⟩

/-- Claim C7, amended — 8-bit addition is modular for all operand values:
add-imm X,NN stores `(register X + NN) mod 256` and leaves the flag register
unchanged whenever X ≠ 0xF (when X = 0xF the flag register is the
destination of the store); add-reg X,Y stores `(register Y + register X) mod
256` and, whenever X ≠ 0xF, sets the flag register to 1 exactly when the
unmodulated sum exceeds 255 and to 0 otherwise (when X = 0xF the stored sum
overwrites the just-written flag). -/
theorem add_semantics_mod256 (env : Env) (s : Chip8) (w : Nat) (o : OpCode)
    (s' : Chip8)
    (hdec : OpCode.tryFrom w = some o)
    (happ : applyOpcode w env s = .ok s') :
    (o.literal = OpLiteral._7XNN →
      s'.dataRegisters (w % 4096 / 256 % 16)
        = (s.dataRegisters (w % 4096 / 256 % 16) + w % 256) % 256 ∧
      (w % 4096 / 256 % 16 ≠ 15 → s'.dataRegisters 15 = s.dataRegisters 15)) ∧
    (o.literal = OpLiteral._8XY4 →
      s'.dataRegisters (w % 4096 / 256 % 16)
        = (s.dataRegisters (w / 16 % 16 % 16)
            + s.dataRegisters (w % 4096 / 256 % 16)) % 256 ∧
      (w % 4096 / 256 % 16 ≠ 15 →
        s'.dataRegisters 15
          = if 255 < s.dataRegisters (w % 4096 / 256 % 16)
                  + s.dataRegisters (w / 16 % 16 % 16)
            then 1 else 0)) := by
  obtain ⟨v, lit, kind⟩ := o
  cases lit
  case _7XNN =>
    simp only [applyOpcode, hdec, readReg_registerXChar, writeReg_registerXChar,
      Except.ok.injEq] at happ
    subst happ
    refine ⟨fun _ => ⟨?_, fun hx => ?_⟩, fun hh => nomatch hh⟩
    · simp
    · simp [Ne.symm hx]
  case _8XY4 =>
    simp only [applyOpcode, hdec, readReg_registerXChar, readReg_registerYChar,
      writeReg_registerXChar, writeReg_f, Except.ok.injEq] at happ
    subst happ
    refine ⟨(fun hh => nomatch hh), fun _ => ⟨?_, fun hx => ?_⟩⟩
    · simp
    · simp [Ne.symm hx]
      split <;> omega
  all_goals exact ⟨(fun hh => nomatch hh), (fun hh => nomatch hh)⟩

/-- Claim C7 (witness) — executing 0x7005 (add-imm 0, 5) from a fresh
machine leaves register 0 = 5 and the flag register unchanged at 0. -/
theorem add_semantics_mod256_witness :
    ∃ s', applyOpcode 0x7005 env0 Chip8.new = Except.ok s' ∧
      s'.dataRegisters 0 = 5 ∧ s'.dataRegisters 15 = 0 := by
  obtain ⟨s', hs'⟩ : ∃ s', applyOpcode 0x7005 env0 Chip8.new = Except.ok s' := ⟨_, rfl⟩
  have h := (add_semantics_mod256 env0 Chip8.new 0x7005 _ s' rfl hs').1 rfl
  exact ⟨s', hs', by simpa using h.1, by simpa using h.2 (by decide)⟩

/-- Claim C8 — wait-key (FX0A) does not block until a mapped key arrives:
the `if let Some` only guards the register write, and the program counter is
stepped unconditionally.  When `Keypad::read` yields no mapped key the
instruction still completes, advancing the PC from 0x200 to 0x202 with the
register unwritten, where the claim demands that the PC not advance. -/
theorem wait_key_advances_pc_without_key :
    ((applyOpcode 0xF00A env0 Chip8.new).map
      (fun t => (t.programCounter, t.dataRegisters 0)) = Except.ok (0x202, 0)) ∧
    env0.keyEvent = none ∧ (0x202 : Nat) ≠ 0x200 :=
  ⟨rfl, rfl, by decide⟩

/-- Claim C9 (counterexample) — `Timer::tick` itself has no zero guard: it is
an unchecked `u8` decrement, so ticking a zero timer wraps to 255 rather than
staying at 0. -/
theorem timer_tick_zero_wraps : Timer.tick 0 = 255 ∧ (255 : Nat) ≠ 0 :=
  ⟨rfl, by decide⟩

/-- Claim C9, amended — the zero guard lives at the call site, not in `tick`:
in every successful cycle, `step` ticks each timer only when its post-execute
value is above zero, leaving a zero timer at zero; and on in-range values the
tick of a positive timer is exactly a decrement by 1, so no sequence of
cycles drives a timer below 0. -/
theorem timer_guard_at_cycle_level :
    (∀ env s sa s',
      applyOpcode s.fetchOpcode env s = .ok sa →
      Chip8.step env s = .ok s' →
      s'.delayTimer
        = (if 0 < sa.delayTimer then Timer.tick sa.delayTimer else sa.delayTimer) ∧
      s'.soundTimer
        = (if 0 < sa.soundTimer then Timer.tick sa.soundTimer else sa.soundTimer)) ∧
    (∀ t : Nat, 0 < t → t < 256 → Timer.tick t = t - 1) := by
  constructor
  · intro env s sa s' happ hstep
    cases htry : OpCode.tryFrom s.fetchOpcode with
    | none =>
      rw [applyOpcode, htry] at happ
      exact Except.noConfusion happ
    | some o =>
      simp only [Chip8.step, htry, happ] at hstep
      simp only [Except.ok.injEq] at hstep
      subst hstep
      constructor <;> split <;> split <;> simp_all
  · intro t h1 h2
    simp only [Timer.tick]
    omega

/-- Claim C9 (witness) — ticking a timer at 5 yields 4; a cycle from a fresh
machine with the delay timer at 5 (opcode 0x0000) leaves it at 4. -/
theorem timer_guard_at_cycle_level_witness :
    Timer.tick 5 = 5 - 1 ∧
    ∃ s', Chip8.step env0 { Chip8.new with delayTimer := 5 } = Except.ok s' ∧
      s'.delayTimer = 4 := by
  refine ⟨timer_guard_at_cycle_level.2 5 (by decide) (by decide), ?_⟩
  obtain ⟨s', hs'⟩ :
      ∃ s', Chip8.step env0 { Chip8.new with delayTimer := 5 } = Except.ok s' :=
    ⟨_, rfl⟩
  have h := (timer_guard_at_cycle_level.1 env0
    { Chip8.new with delayTimer := 5 } { Chip8.new with delayTimer := 5 } s'
    rfl hs').1
  exact ⟨s', hs', by rw [h]; rfl⟩

/-- Claim C10 — a cycle whose fetched word does not decode is fatal and
atomic: `step` raises the decode error before executing anything, so the
caller observes the original machine state (program counter included)
together with the propagated `Unknown` error. -/
theorem decode_failure_leaves_state_unchanged (env : Env) (s : Chip8)
    (hdec : OpCode.tryFrom s.fetchOpcode = none) :
    Chip8.stepMut env s = (s, some (VmError.opcodeUnknown s.fetchOpcode)) := by
  simp only [Chip8.stepMut, Chip8.step, hdec]

/-- A machine whose memory is all 0xFF bytes: every fetch yields 0xFFFF,
which does not decode. -/
def errState : Chip8 :=
  { Chip8.new with memory := fun _ => 0xFF }

/-- Claim C10 (witness) — stepping the all-0xFF machine reports the unknown
opcode 0xFFFF and leaves the state untouched. -/
theorem decode_failure_leaves_state_unchanged_witness :
    Chip8.stepMut env0 errState = (errState, some (VmError.opcodeUnknown 0xFFFF)) :=
  decode_failure_leaves_state_unchanged env0 errState rfl

end ChipRs
